import Mathlib

/-
Shallow embedding of the NLP-engine service of this repository
(src/backend/nlp-engine): the language-processor orchestrator
(services/language_processor.py), the intent classifier
(models/intent_classifier.py) and the entity extractor
(models/entity_extractor.py).

Modelling conventions:
  * Python floats are modelled as exact rationals (Rat);
  * a raised Python exception is modelled as `Except.error` carrying a
    `PyError` (the exception class and its message, as `str(e)` renders it);
  * the external ML models (transformer inference) are parameters of the
    embedding: a function from the input text to the softmax probability
    rows, as the spec treats them as external collaborators;
  * real time (TTL expiry, wall-clock latency) is abstracted: the measured
    latency of a successful request is a parameter `elapsed`, and the
    TTL cache is modelled as an association list (no expiry event occurs
    within a single call).
-/

namespace NLP

/-- A raised Python exception: the class (`ValueError` for input-validation
failures, `RuntimeError` for processing failures) and its message. -/
inductive PyError where
  | valueError (msg : String)
  | runtimeError (msg : String)
deriving Repr, DecidableEq

/-- Rendering `str(e)` of a raised exception: its message. -/
def errMsg : PyError → String
  | .valueError m => m
  | .runtimeError m => m

/-- Result dict of `IntentClassifier.classify_intent`:
`\x7b"intent": ..., "confidence": ..., "status": ...\x7d`. -/
structure IntentResult where
  intent : String
  confidence : Rat
  status : String
deriving Repr, DecidableEq

/-- An entity dict produced by `EntityExtractor.extract_entities`:
`\x7b"type": ..., "confidence": ..., "position": ..., "text": ...\x7d`. -/
structure Entity where
  type : String
  confidence : Rat
  position : Nat
  text : String
deriving Repr, DecidableEq

/-- The `validation_details` sub-dict built by
`LanguageProcessor._validate_results`. -/
structure ValidationDetails where
  intent_valid : Bool
  entities_valid : Bool
  missing_entities : List String
deriving Repr, DecidableEq

/-- The validated result dict built by `LanguageProcessor._validate_results`
(`intent` sub-dict flattened into the two `intent_*` fields). -/
structure ValidatedResult where
  intent_name : String
  intent_confidence : Rat
  entities : List Entity
  overall_confidence : Rat
  validation_details : ValidationDetails
deriving Repr, DecidableEq

/-- The `required_entities` table of `_validate_results`
(language_processor.py, lines 224-229). -/
def required_entities : List (String × List String) :=
  [("create_agent", ["AGENT_NAME", "INTEGRATION_TYPE"]),
   ("modify_agent", ["AGENT_NAME"]),
   ("delete_agent", ["AGENT_NAME"]),
   ("configure_integration", ["INTEGRATION_TYPE"])]

/-- Lookup `intent in required_entities` / `required_entities[intent]`:
dictionary lookup in the required-entities table. -/
def lookupRequired (intent : String) : Option (List String) :=
  (required_entities.find? (fun p => p.1 == intent)).map (fun p => p.2)

/-- Embedding of `LanguageProcessor._validate_results` (language_processor.py, lines
202-260).  `threshold` is `self._confidence_threshold`.  The Python set
difference `set(required_entities[intent]) - found_types`, rendered by
`list(...)`, is modelled as the required list filtered to the types no
extracted entity carries (the required lists are duplicate-free, so this
is the set difference; element order of a Python `set` is unspecified,
the filter keeps the table's order). -/
def validate_results (threshold : Rat) (intent_result : IntentResult)
    (entities_result : List Entity) : ValidatedResult :=
  let intent_confidence := intent_result.confidence
  let entity_confidences := entities_result.map (fun e => e.confidence)
  let avg_entity_confidence : Rat :=
    if entity_confidences.isEmpty then 0
    else entity_confidences.sum / (entity_confidences.length : Rat)
  let intent := intent_result.intent
  let missing_types : List String :=
    match lookupRequired intent with
    | some req => req.filter (fun t => ! entities_result.any (fun e => e.type == t))
    | none => []
  let overall_confidence := (intent_confidence + avg_entity_confidence) / 2
  { intent_name := intent
    intent_confidence := intent_confidence
    entities := entities_result
    overall_confidence := overall_confidence
    validation_details :=
      { intent_valid := threshold ≤ intent_confidence
        entities_valid := threshold ≤ avg_entity_confidence
        missing_entities :=
          match lookupRequired intent with
          | some _ => missing_types
          | none => [] } }

/-- The spec's merge formula, stated independently of `validate_results`:
the arithmetic mean of the entity confidences, `0` for an empty list. -/
def avgEntityConfidence (es : List Entity) : Rat :=
  if es.isEmpty then 0
  else (es.map (fun e => e.confidence)).sum / (es.length : Rat)

/-- C2: the merge step computes
`overall_confidence = (intent_confidence + a) / 2` where `a` is the mean of
the entity confidences, and `a = 0` for an empty entity list. -/
theorem overall_confidence_formula (threshold : Rat) (ir : IntentResult)
    (es : List Entity) :
    (validate_results threshold ir es).overall_confidence
      = (ir.confidence + avgEntityConfidence es) / 2
    ∧ avgEntityConfidence [] = 0 := by
  constructor
  · simp only [validate_results, avgEntityConfidence]
    cases es with
    | nil => simp
    | cons e es => simp [List.isEmpty, List.length_map]
  · simp [avgEntityConfidence]

/-- C3: when the detected intent is a key of the required-entities table,
`validation_details.missing_entities` is the set difference of that
intent's required types and the types present among the extracted
entities; for intent `"create_agent"` with `AGENT_NAME` present and
`INTEGRATION_TYPE` absent it is exactly `["INTEGRATION_TYPE"]`; for an
intent not in the table it is `[]`. -/
theorem missing_entities_spec (threshold : Rat) (ir : IntentResult)
    (es : List Entity) :
    (∀ req, lookupRequired ir.intent = some req →
      ∀ t, t ∈ (validate_results threshold ir es).validation_details.missing_entities
        ↔ (t ∈ req ∧ ∀ e ∈ es, e.type ≠ t))
    ∧ (lookupRequired ir.intent = none →
        (validate_results threshold ir es).validation_details.missing_entities = [])
    ∧ (ir.intent = "create_agent" →
        (∃ e ∈ es, e.type = "AGENT_NAME") →
        (∀ e ∈ es, e.type ≠ "INTEGRATION_TYPE") →
        (validate_results threshold ir es).validation_details.missing_entities
          = ["INTEGRATION_TYPE"]) := by
  refine ⟨?_, ?_, ?_⟩
  · intro req hreq t
    simp only [validate_results, hreq, List.mem_filter, Bool.not_eq_true',
      List.any_eq_false, beq_iff_eq]
  · intro hnone
    simp only [validate_results, hnone]
  · intro hintent ⟨ea, hea, heat⟩ hnoint
    have hreq : lookupRequired ir.intent = some ["AGENT_NAME", "INTEGRATION_TYPE"] := by
      rw [hintent]; rfl
    simp only [validate_results, hreq]
    have h1 : es.any (fun e => e.type == "AGENT_NAME") = true := by
      simp only [List.any_eq_true, beq_iff_eq]
      exact ⟨ea, hea, heat⟩
    have h2 : es.any (fun e => e.type == "INTEGRATION_TYPE") = false := by
      simp only [List.any_eq_false, beq_iff_eq]
      exact fun e he => hnoint e he
    simp [List.filter, h1, h2]

/-- Witness for C3: with intent `create_agent`, one `AGENT_NAME` entity of
confidence 9/10 and no `INTEGRATION_TYPE` entity, `missing_entities` is
exactly `["INTEGRATION_TYPE"]`. -/
theorem missing_entities_spec_witness :
    (validate_results (9/10)
        { intent := "create_agent", confidence := 97/100, status := "success" }
        [{ type := "AGENT_NAME", confidence := 9/10, position := 3, text := "s" }]
      ).validation_details.missing_entities = ["INTEGRATION_TYPE"] := by
  exact (missing_entities_spec (9/10)
      { intent := "create_agent", confidence := 97/100, status := "success" }
      [{ type := "AGENT_NAME", confidence := 9/10, position := 3, text := "s" }]).2.2
    rfl
    ⟨{ type := "AGENT_NAME", confidence := 9/10, position := 3, text := "s" },
      by simp, rfl⟩
    (by intro e he; simp at he; simp [he])

/-- The `self._performance_metrics` dict of `LanguageProcessor`. -/
structure Metrics where
  total_requests : Nat
  successful_requests : Nat
  failed_requests : Nat
  average_latency : Rat
  last_error : Option String
deriving Repr, DecidableEq

/-- The metrics dict as initialised in `LanguageProcessor.__init__`
(language_processor.py, lines 51-57). -/
def initialMetrics : Metrics :=
  { total_requests := 0
    successful_requests := 0
    failed_requests := 0
    average_latency := 0
    last_error := none }

/-- Embedding of `LanguageProcessor._update_metrics` (language_processor.py, lines
262-283): increments `total_requests`, then exactly one of
`successful_requests` / `failed_requests`, records `last_error` on
failure and folds `processing_time` into the running average. -/
def update_metrics (m : Metrics) (success : Bool) (processing_time : Rat)
    (error : Option String) : Metrics :=
  let total := m.total_requests + 1
  { total_requests := total
    successful_requests :=
      if success then m.successful_requests + 1 else m.successful_requests
    failed_requests :=
      if success then m.failed_requests else m.failed_requests + 1
    last_error := if success then m.last_error else error
    average_latency :=
      (m.average_latency * ((total : Rat) - 1) + processing_time) / (total : Rat) }

/-- The configuration values the orchestrator reads
(`self._config["max_sequence_length"]`, `self._confidence_threshold`,
`self._batch_size_limit`). -/
structure Config where
  max_sequence_length : Nat
  confidence_threshold : Rat
  batch_size_limit : Nat

/-- The orchestrator's collaborators, abstracted at their interface:
`self._preprocessor.transform`, `self._intent_classifier.classify_intent`
and `self._entity_extractor.extract_entities`, each of which either
returns a value or raises. -/
structure Collaborators where
  transform : String → Except PyError Unit
  classify_intent : String → Except PyError IntentResult
  extract_entities : String → Except PyError (List Entity)

/-- The enriched output dict of a successful `process_text` call
(language_processor.py, lines 126-131); the wall-clock `request_id` is
metadata not modelled. -/
structure ProcessOutput where
  processing_time : Rat
  status : String
  result : ValidatedResult
deriving Repr, DecidableEq

/-- The `try` body of `LanguageProcessor.process_text`
(language_processor.py, lines 85-134): input validation, preprocessing,
then the two concurrently dispatched inference calls gathered with
`return_exceptions=True` and re-raised in the order
`[intent_result, entities_result]`, then `_validate_results`.  `elapsed`
is the measured wall-clock latency of the request. -/
def processTextCore (cfg : Config) (co : Collaborators) (elapsed : Rat)
    (text : String) : Except PyError ProcessOutput :=
  if text.isEmpty then .error (.valueError "Invalid input text")
  else if cfg.max_sequence_length < text.length then
    .error (.valueError "Input text exceeds maximum length")
  else
    match co.transform text with
    | .error e => .error e
    | .ok _ =>
      let intent_result := co.classify_intent text
      let entities_result := co.extract_entities text
      match intent_result with
      | .error e => .error e
      | .ok ir =>
        match entities_result with
        | .error e => .error e
        | .ok es =>
          .ok { processing_time := elapsed
                status := "success"
                result := validate_results cfg.confidence_threshold ir es }

/-- Embedding of `LanguageProcessor.process_text` (language_processor.py, lines 68-139):
the `try` body together with the `except` handler, which records the
failure into the metrics with a processing time of `0` and re-raises;
the success path records the elapsed time as a success. -/
def process_text (cfg : Config) (co : Collaborators) (elapsed : Rat)
    (m : Metrics) (text : String) : Except PyError ProcessOutput × Metrics :=
  match processTextCore cfg co elapsed text with
  | .error e => (.error e, update_metrics m false 0 (some (errMsg e)))
  | .ok out => (.ok out, update_metrics m true elapsed none)

/-- The returned value of `process_text` is fully determined by its `try`
body: the `except` handler only updates metrics and re-raises. -/
theorem process_text_fst (cfg : Config) (co : Collaborators) (elapsed : Rat)
    (m : Metrics) (text : String) :
    (process_text cfg co elapsed m text).1 = processTextCore cfg co elapsed text := by
  unfold process_text
  cases processTextCore cfg co elapsed text <;> rfl

/-- C1: once the two inference calls are dispatched (input validation and
preprocessing passed), a failure of either call makes the whole request
fail with that error — no `ValidatedResult` is returned and the other
call's result never appears. -/
theorem process_text_atomic_failure (cfg : Config) (co : Collaborators)
    (elapsed : Rat) (m : Metrics) (text : String) (e : PyError)
    (hne : text.isEmpty = false)
    (hlen : text.length ≤ cfg.max_sequence_length)
    (htr : co.transform text = .ok ())
    (herr : co.classify_intent text = .error e ∨
            ((∃ ir, co.classify_intent text = .ok ir) ∧
              co.extract_entities text = .error e)) :
    (process_text cfg co elapsed m text).1 = .error e := by
  rw [process_text_fst]
  have hnl : ¬ cfg.max_sequence_length < text.length := Nat.not_lt.mpr hlen
  rcases herr with hc | ⟨⟨ir, hir⟩, hext⟩
  · simp [processTextCore, hne, hnl, htr, hc]
  · simp [processTextCore, hne, hnl, htr, hir, hext]

/-- A configuration with the repository's default values
(`max_sequence_length = 512`, `confidence_threshold = 0.95`,
`batch_size = 32`; settings.py). -/
def cfg0 : Config :=
  { max_sequence_length := 512, confidence_threshold := 95/100
    batch_size_limit := 32 }

/-- Collaborators that all succeed (extractor finds no entities). -/
def coOk : Collaborators :=
  { transform := fun _ => .ok ()
    classify_intent := fun _ =>
      .ok { intent := "help", confidence := 1, status := "success" }
    extract_entities := fun _ => .ok [] }

/-- Collaborators whose intent classification raises. -/
def coIntentFail : Collaborators :=
  { transform := fun _ => .ok ()
    classify_intent := fun _ =>
      .error (.runtimeError "Intent classification failed")
    extract_entities := fun _ => .ok [] }

/-- Witness for C1: with a failing intent classifier, `process_text` on
`"hello"` fails with exactly that error. -/
theorem process_text_atomic_failure_witness :
    (process_text cfg0 coIntentFail 1 initialMetrics "hello").1
      = .error (.runtimeError "Intent classification failed") :=
  process_text_atomic_failure cfg0 coIntentFail 1 initialMetrics "hello"
    (.runtimeError "Intent classification failed")
    (by decide) (by decide) rfl (Or.inl rfl)

/-- C5: an empty or over-long input fails input validation before any
preprocessing or inference call (the outcome does not depend on the
collaborators at all), and the metrics record exactly one additional
failed request. -/
theorem process_text_input_validation (cfg : Config) (co : Collaborators)
    (elapsed : Rat) (m : Metrics) (text : String)
    (h : text.isEmpty = true ∨ cfg.max_sequence_length < text.length) :
    ((process_text cfg co elapsed m text).1
        = .error (.valueError (if text.isEmpty then "Invalid input text"
            else "Input text exceeds maximum length")))
    ∧ (process_text cfg co elapsed m text).2.total_requests = m.total_requests + 1
    ∧ (process_text cfg co elapsed m text).2.failed_requests = m.failed_requests + 1
    ∧ (process_text cfg co elapsed m text).2.successful_requests = m.successful_requests
    ∧ ∀ co' : Collaborators,
        process_text cfg co' elapsed m text = process_text cfg co elapsed m text := by
  have hcore : ∀ co'' : Collaborators, processTextCore cfg co'' elapsed text
      = .error (.valueError (if text.isEmpty then "Invalid input text"
          else "Input text exceeds maximum length")) := by
    intro co''
    cases hE : text.isEmpty with
    | true => simp [processTextCore, hE]
    | false =>
      have hlong : cfg.max_sequence_length < text.length := by
        rcases h with hempty | hlong
        · rw [hE] at hempty; exact absurd hempty (by simp)
        · exact hlong
      simp [processTextCore, hE, hlong]
  have hp : ∀ co'' : Collaborators, process_text cfg co'' elapsed m text
      = (.error (.valueError (if text.isEmpty then "Invalid input text"
            else "Input text exceeds maximum length")),
         update_metrics m false 0
           (some (if text.isEmpty then "Invalid input text"
             else "Input text exceeds maximum length"))) := by
    intro co''
    simp [process_text, hcore co'', errMsg]
  refine ⟨?_, ?_, ?_, ?_, ?_⟩
  · rw [hp co]
  · rw [hp co]; simp [update_metrics]
  · rw [hp co]; simp [update_metrics]
  · rw [hp co]; simp [update_metrics]
  · intro co'; rw [hp co', hp co]

/-- Witness for C5: the empty string fails validation with one more
failed and total request, independently of the collaborators (here:
the all-failing classifier behaves the same as the all-succeeding one). -/
theorem process_text_input_validation_witness :
    ((process_text cfg0 coOk 1 initialMetrics "").1
        = .error (.valueError (if ("" : String).isEmpty then "Invalid input text"
            else "Input text exceeds maximum length")))
    ∧ (process_text cfg0 coOk 1 initialMetrics "").2.total_requests
        = initialMetrics.total_requests + 1
    ∧ (process_text cfg0 coOk 1 initialMetrics "").2.failed_requests
        = initialMetrics.failed_requests + 1
    ∧ (process_text cfg0 coOk 1 initialMetrics "").2.successful_requests
        = initialMetrics.successful_requests
    ∧ process_text cfg0 coIntentFail 1 initialMetrics ""
        = process_text cfg0 coOk 1 initialMetrics "" :=
  ⟨(process_text_input_validation cfg0 coOk 1 initialMetrics "" (Or.inl rfl)).1,
   (process_text_input_validation cfg0 coOk 1 initialMetrics "" (Or.inl rfl)).2.1,
   (process_text_input_validation cfg0 coOk 1 initialMetrics "" (Or.inl rfl)).2.2.1,
   (process_text_input_validation cfg0 coOk 1 initialMetrics "" (Or.inl rfl)).2.2.2.1,
   (process_text_input_validation cfg0 coOk 1 initialMetrics "" (Or.inl rfl)).2.2.2.2
     coIntentFail⟩

/-- The metrics invariant implicit in `_update_metrics`: every request is
counted exactly once, as a success or as a failure. -/
def metricsInv (m : Metrics) : Prop :=
  m.total_requests = m.successful_requests + m.failed_requests

/-- C10: `total_requests = successful_requests + failed_requests` holds of
the freshly initialised metrics and is preserved by every metrics update,
in particular by every `process_text` call; a failed request is recorded
with a processing time of `0`. -/
theorem metrics_invariant (m : Metrics) (hm : metricsInv m) :
    metricsInv initialMetrics
    ∧ (∀ (success : Bool) (t : Rat) (err : Option String),
        metricsInv (update_metrics m success t err))
    ∧ (∀ (cfg : Config) (co : Collaborators) (elapsed : Rat) (text : String),
        metricsInv (process_text cfg co elapsed m text).2)
    ∧ (∀ (cfg : Config) (co : Collaborators) (elapsed : Rat) (text : String)
        (e : PyError),
        (process_text cfg co elapsed m text).1 = .error e →
        (process_text cfg co elapsed m text).2
          = update_metrics m false 0 (some (errMsg e))) := by
  have hupd : ∀ (success : Bool) (t : Rat) (err : Option String),
      metricsInv (update_metrics m success t err) := by
    intro success t err
    unfold metricsInv update_metrics at *
    cases success <;> simp <;> omega
  refine ⟨rfl, hupd, ?_, ?_⟩
  · intro cfg co elapsed text
    unfold process_text
    cases processTextCore cfg co elapsed text <;> exact hupd _ _ _
  · intro cfg co elapsed text e herr
    unfold process_text at *
    cases hcore : processTextCore cfg co elapsed text with
    | error e' =>
      rw [hcore] at herr
      simp at herr
      simp [herr]
    | ok out =>
      rw [hcore] at herr
      simp at herr

/-- Witness for C10: the invariant instantiated at the initial metrics,
a concrete failing update, a concrete `process_text` call, and the
failure path of the empty-string request (recorded with time `0`). -/
theorem metrics_invariant_witness :
    metricsInv initialMetrics
    ∧ metricsInv (update_metrics initialMetrics false 0 (some "boom"))
    ∧ metricsInv (process_text cfg0 coOk 1 initialMetrics "hello").2
    ∧ (process_text cfg0 coOk 1 initialMetrics "").2
        = update_metrics initialMetrics false 0
            (some (errMsg (.valueError "Invalid input text"))) :=
  ⟨(metrics_invariant initialMetrics rfl).1,
   (metrics_invariant initialMetrics rfl).2.1 false 0 (some "boom"),
   (metrics_invariant initialMetrics rfl).2.2.1 cfg0 coOk 1 "hello",
   (metrics_invariant initialMetrics rfl).2.2.2 cfg0 coOk 1 ""
     (.valueError "Invalid input text") rfl⟩

/-- One element of the output sequence of `process_batch`: a successful
item's result dict (carrying status `"success"`) or the error record
`\x7b"status": "error", "error": str(e), "original_text": texts[idx]\x7d`
(language_processor.py, lines 176-185). -/
inductive BatchItem where
  | success (result : ProcessOutput)
  | errorRec (error : String) (original_text : String)
deriving Repr, DecidableEq

/-- The `asyncio.gather(*tasks, return_exceptions=True)` step of
`process_batch`: one `process_text` outcome per input position, with the
shared metrics threaded through (concurrent updates commute into this
sequential threading; each item's outcome does not depend on the metrics
state).  `elapsedOf i` is the wall-clock latency of item `i`. -/
def gatherResults (cfg : Config) (co : Collaborators) (elapsedOf : Nat → Rat) :
    List String → Nat → Metrics → List (Except PyError ProcessOutput) × Metrics
  | [], _, m => ([], m)
  | t :: ts, i, m =>
    let r := process_text cfg co (elapsedOf i) m t
    let rest := gatherResults cfg co elapsedOf ts (i + 1) r.2
    (r.1 :: rest.1, rest.2)

/-- The per-item conversion loop of `process_batch` (lines 176-185): an
exception becomes the error record with the item's original text, a
normal outcome is appended as-is. -/
def toBatchItem (r : Except PyError ProcessOutput) (t : String) : BatchItem :=
  match r with
  | .error e => .errorRec (errMsg e) t
  | .ok out => .success out

/-- Zip of the gathered outcomes with `texts[idx]`, converting each pair
(the loop `for idx, result in enumerate(results)` reads `texts[idx]`). -/
def zipConvert : List (Except PyError ProcessOutput) → List String → List BatchItem
  | r :: rs, t :: ts => toBatchItem r t :: zipConvert rs ts
  | _, _ => []

/-- The message of the batch-size `ValueError`
(`f"Invalid batch size. Limit: {self._batch_size_limit}"`). -/
def batchSizeMsg (cfg : Config) : String :=
  "Invalid batch size. Limit: " ++ toString cfg.batch_size_limit

/-- Embedding of `LanguageProcessor.process_batch` (language_processor.py, lines
141-200): the batch-size check raises a `ValueError`, which the
function's own blanket `except` immediately catches and re-raises as
`RuntimeError(f"Batch processing failed: {str(e)}")`; a valid batch
dispatches `process_text` per item and converts each outcome. -/
def process_batch (cfg : Config) (co : Collaborators) (elapsedOf : Nat → Rat)
    (m : Metrics) (texts : List String) :
    Except PyError (List BatchItem) × Metrics :=
  if texts.isEmpty ∨ cfg.batch_size_limit < texts.length then
    (.error (.runtimeError ("Batch processing failed: " ++ batchSizeMsg cfg)), m)
  else
    let g := gatherResults cfg co elapsedOf texts 0 m
    (.ok (zipConvert g.1 texts), g.2)

/-- C4: on a valid batch, `process_batch` succeeds and its output is
exactly one entry per input position: position `i` holds the successful
result of processing `texts[i]` when that item's pipeline succeeds, and
the error record carrying `texts[i]` as `original_text` when it raises —
each entry is determined by its own text alone (the shared metrics state
threaded between items never influences any entry), so a failing item
neither aborts the batch nor alters its siblings. -/
theorem process_batch_positional (cfg : Config) (co : Collaborators)
    (elapsedOf : Nat → Rat) (m : Metrics) (texts : List String)
    (hne : texts ≠ []) (hlen : texts.length ≤ cfg.batch_size_limit) :
    (process_batch cfg co elapsedOf m texts).1
      = .ok ((texts.enum).map (fun p =>
          match processTextCore cfg co (elapsedOf p.1) p.2 with
          | .ok out => BatchItem.success out
          | .error e => BatchItem.errorRec (errMsg e) p.2)) := by
  have hE : texts.isEmpty = false := by
    cases texts with
    | nil => exact absurd rfl hne
    | cons t ts => rfl
  have hcond : ¬ ((texts.isEmpty : Prop) ∨ cfg.batch_size_limit < texts.length) := by
    simp [hE]
    omega
  have key : ∀ (ts : List String) (i : Nat) (mm : Metrics),
      zipConvert (gatherResults cfg co elapsedOf ts i mm).1 ts
        = (List.enumFrom i ts).map (fun p =>
            match processTextCore cfg co (elapsedOf p.1) p.2 with
            | .ok out => BatchItem.success out
            | .error e => BatchItem.errorRec (errMsg e) p.2) := by
    intro ts
    induction ts with
    | nil => intro i mm; rfl
    | cons t ts ih =>
      intro i mm
      show toBatchItem (process_text cfg co (elapsedOf i) mm t).1 t
            :: zipConvert (gatherResults cfg co elapsedOf ts (i + 1)
                (process_text cfg co (elapsedOf i) mm t).2).1 ts
          = _
      rw [process_text_fst, ih]
      simp only [List.enumFrom, List.map_cons]
      congr 1
      cases processTextCore cfg co (elapsedOf i) t <;> rfl
  unfold process_batch
  rw [if_neg hcond]
  show Except.ok (zipConvert (gatherResults cfg co elapsedOf texts 0 m).1 texts) = _
  rw [key texts 0 m]
  rfl

/-- Witness for C4: a two-item batch whose intent classifier always
fails returns, per position, the error record carrying that position's
original text. -/
theorem process_batch_positional_witness :
    (process_batch cfg0 coIntentFail (fun _ => 1) initialMetrics
        ["hi", "yo"]).1
      = .ok (((["hi", "yo"] : List String).enum).map (fun p =>
          match processTextCore cfg0 coIntentFail ((fun _ => (1 : Rat)) p.1) p.2 with
          | .ok out => BatchItem.success out
          | .error e => BatchItem.errorRec (errMsg e) p.2)) :=
  process_batch_positional cfg0 coIntentFail (fun _ => 1) initialMetrics
    ["hi", "yo"] (by decide) (by decide)

/-- A configuration whose batch-size ceiling is `2`. -/
def cfgSmall : Config :=
  { max_sequence_length := 512, confidence_threshold := 95/100
    batch_size_limit := 2 }

/-- C9 (code behaviour at the failing input): a three-item batch against a
ceiling of `2` fails before any item is processed (metrics untouched,
collaborators never invoked), but the surfaced error is
`RuntimeError("Batch processing failed: ...")` — the processing-failure
wrapper — because `process_batch`'s blanket `except` catches its own
batch-size `ValueError` and re-wraps it, contradicting the documented
`ValueError` for input-validation failures. -/
theorem process_batch_oversize_runtime_error (co : Collaborators)
    (elapsedOf : Nat → Rat) (m : Metrics) :
    (process_batch cfgSmall co elapsedOf m ["a", "b", "c"]).1
      = .error (.runtimeError "Batch processing failed: Invalid batch size. Limit: 2")
    ∧ (process_batch cfgSmall co elapsedOf m ["a", "b", "c"]).2 = m := by
  have hcond : ((["a", "b", "c"] : List String).isEmpty : Prop)
      ∨ cfgSmall.batch_size_limit < (["a", "b", "c"] : List String).length :=
    Or.inr (by decide)
  unfold process_batch
  rw [if_pos hcond]
  exact ⟨rfl, rfl⟩

/-- The list `INTENT_LABELS` (intent_classifier.py, lines 24-27). -/
def INTENT_LABELS : List String :=
  ["create_agent", "modify_agent", "delete_agent",
   "query_status", "configure_integration", "help"]

/-- Scan step of `torch.max(probs, dim=-1)`: best value so far, index of
its first occurrence, and the index of the next element to visit. -/
def topOfGo (bv : Rat) (bi cur : Nat) : List Rat → Rat × Nat
  | [] => (bv, bi)
  | y :: ys =>
    if bv < y then topOfGo y cur (cur + 1) ys else topOfGo bv bi (cur + 1) ys

/-- Computes `torch.max(probs, dim=-1)` on one row: the maximum probability and the
index of its first occurrence (softmax rows are non-empty; the `[]` case
is unreachable). -/
def topOf : List Rat → Rat × Nat
  | [] => (0, 0)
  | x :: xs => topOfGo x 0 1 xs

/-- The classifier's TTL result cache (`TTLCache(maxsize=1000, ttl=...)`)
keyed by `hash(text)`: modelled as an association list keyed by the text
itself (hash collisions and TTL expiry within a call are abstracted
away, per §5 of the spec). -/
structure ClassifierState where
  cache : List (String × IntentResult)
deriving Repr, DecidableEq

/-- Lookup `cache_key in self._cache` / `self._cache[cache_key]`. -/
def cacheLookup (c : List (String × IntentResult)) (k : String) :
    Option IntentResult :=
  (c.find? (fun p => p.1 == k)).map (fun p => p.2)

/-- Assignment `self._cache[cache_key] = result`. -/
def cacheInsert (c : List (String × IntentResult)) (k : String)
    (v : IntentResult) : List (String × IntentResult) :=
  (k, v) :: c.filter (fun p => p.1 != k)

/-- Embedding of `IntentClassifier.classify_intent` (intent_classifier.py, lines
88-149): return a cached result on a cache hit; otherwise run inference,
gate the result on the confidence threshold, cache and return it.
`probsOf text` is the softmax probability row the transformer model
produces for the preprocessed text — the external collaborator;
`threshold` is `self.confidence_threshold`. -/
def classify_intent (probsOf : String → List Rat) (threshold : Rat)
    (st : ClassifierState) (text : String) : IntentResult × ClassifierState :=
  match cacheLookup st.cache text with
  | some r => (r, st)
  | none =>
    let confidence := (topOf (probsOf text)).1
    let pred_idx := (topOf (probsOf text)).2
    let predicted_intent := INTENT_LABELS.getD pred_idx ""
    let result : IntentResult :=
      if confidence < threshold then
        { intent := "unknown", confidence := confidence
          status := "low_confidence" }
      else
        { intent := predicted_intent, confidence := confidence
          status := "success" }
    (result, { cache := cacheInsert st.cache text result })

/-- One item of `IntentClassifier.classify_batch`'s result loop
(intent_classifier.py, lines 193-205): the same model output
post-processed with the batch path's conditional expressions. -/
def batchItemResult (probsOf : String → List Rat) (threshold : Rat)
    (text : String) : IntentResult :=
  let confidence := (topOf (probsOf text)).1
  let pred_idx := (topOf (probsOf text)).2
  let predicted_intent := INTENT_LABELS.getD pred_idx ""
  { intent := if threshold ≤ confidence then predicted_intent else "unknown"
    confidence := confidence
    status := if threshold ≤ confidence then "success" else "low_confidence" }

/-- The per-item loop of `classify_batch`: each item's result is computed
from the model output and written to the cache; the cache is never
read. -/
def classifyBatchGo (probsOf : String → List Rat) (threshold : Rat) :
    List String → ClassifierState → List IntentResult × ClassifierState
  | [], st => ([], st)
  | t :: ts, st =>
    let result := batchItemResult probsOf threshold t
    let st' : ClassifierState := { cache := cacheInsert st.cache t result }
    let rest := classifyBatchGo probsOf threshold ts st'
    (result :: rest.1, rest.2)

/-- Embedding of `IntentClassifier.classify_batch` (intent_classifier.py, lines
151-213): `[]` for an empty input, otherwise per-item batched inference
(sub-batching in groups of 32 concatenates in input order and is
result-preserving, as each row is post-processed independently). -/
def classify_batch (probsOf : String → List Rat) (threshold : Rat)
    (st : ClassifierState) (texts : List String) :
    List IntentResult × ClassifierState :=
  if texts.isEmpty then ([], st)
  else classifyBatchGo probsOf threshold texts st

/-- C6: on a fresh text (cache miss), `classify_intent` reports the
top-class probability as confidence; below the threshold the intent is
forced to `"unknown"` with status `"low_confidence"`, otherwise the
top-probability label is returned with status `"success"`. -/
theorem classify_confidence_gating (probsOf : String → List Rat)
    (threshold : Rat) (st : ClassifierState) (text : String)
    (hmiss : cacheLookup st.cache text = none) :
    ((classify_intent probsOf threshold st text).1.confidence
        = (topOf (probsOf text)).1)
    ∧ ((topOf (probsOf text)).1 < threshold →
        (classify_intent probsOf threshold st text).1.intent = "unknown"
        ∧ (classify_intent probsOf threshold st text).1.status = "low_confidence")
    ∧ (threshold ≤ (topOf (probsOf text)).1 →
        (classify_intent probsOf threshold st text).1.intent
          = INTENT_LABELS.getD (topOf (probsOf text)).2 ""
        ∧ (classify_intent probsOf threshold st text).1.status = "success") := by
  refine ⟨?_, ?_, ?_⟩
  · by_cases h : (topOf (probsOf text)).1 < threshold <;>
      simp [classify_intent, hmiss, h]
  · intro hlt
    simp [classify_intent, hmiss, hlt]
  · intro hle
    have h : ¬ (topOf (probsOf text)).1 < threshold := not_lt.mpr hle
    simp [classify_intent, hmiss, h]

/-- A classifier state with an empty cache. -/
def emptyClassifier : ClassifierState := { cache := [] }

/-- A model whose softmax row puts mass 7/10 on label index 1
(`modify_agent`). -/
def probs1 : String → List Rat :=
  fun _ => [1/10, 7/10, 1/10, 0, 0, 1/10]

/-- Witness for C6: with threshold 1/2 and top probability 7/10, a fresh
text is classified as the top label with status `"success"` and
confidence 7/10. -/
theorem classify_confidence_gating_witness :
    (classify_intent probs1 (1/2) emptyClassifier "x").1.confidence
        = (topOf (probs1 "x")).1
    ∧ (classify_intent probs1 (1/2) emptyClassifier "x").1.intent
        = INTENT_LABELS.getD (topOf (probs1 "x")).2 ""
    ∧ (classify_intent probs1 (1/2) emptyClassifier "x").1.status = "success" :=
  ⟨(classify_confidence_gating probs1 (1/2) emptyClassifier "x" rfl).1,
   ((classify_confidence_gating probs1 (1/2) emptyClassifier "x" rfl).2.2
      (by norm_num [probs1, topOf, topOfGo])).1,
   ((classify_confidence_gating probs1 (1/2) emptyClassifier "x" rfl).2.2
      (by norm_num [probs1, topOf, topOfGo])).2⟩

/-- A cached classification result for the text `"t"` that differs from
what the model currently produces (e.g. written before the underlying
data shifted; any cache content is reachable this way only through the
classifier itself, but the claim quantifies over cache-hit behaviour). -/
def staleCached : IntentResult :=
  { intent := "help", confidence := 1/2, status := "success" }

/-- A classifier state whose cache holds `staleCached` for `"t"`. -/
def staleState : ClassifierState := { cache := [("t", staleCached)] }

/-- Counterexample to C8 as stated: on a cache hit, single-item
`classify_intent` returns the cached result, while `classify_batch`
ignores the cache and recomputes from the model — the two disagree at
position 0. -/
theorem classify_batch_cache_divergence :
    ((classify_batch probs1 (1/2) staleState ["t"]).1)[0]?
      ≠ some (classify_intent probs1 (1/2) staleState "t").1 := by
  have htop : topOf (probs1 "t") = (7/10, 1) := by
    norm_num [probs1, topOf, topOfGo]
  have hbatch : ((classify_batch probs1 (1/2) staleState ["t"]).1)[0]?
      = some (batchItemResult probs1 (1/2) "t") := rfl
  have hint : (batchItemResult probs1 (1/2) "t").intent = "modify_agent" := by
    simp only [batchItemResult, htop]
    rw [if_pos (by norm_num)]
    rfl
  have hsingle : (classify_intent probs1 (1/2) staleState "t").1.intent
      = "help" := rfl
  rw [hbatch]
  intro h
  injection h with h
  have h2 := congrArg IntentResult.intent h
  rw [hint, hsingle] at h2
  exact absurd h2 (by decide)

/-- On a cache miss, `classify_intent` computes exactly what the batch
path's per-item loop computes (the two gating conditionals are
complementary). -/
theorem classify_intent_miss (probsOf : String → List Rat) (threshold : Rat)
    (st : ClassifierState) (text : String)
    (hmiss : cacheLookup st.cache text = none) :
    (classify_intent probsOf threshold st text).1
      = batchItemResult probsOf threshold text := by
  unfold classify_intent batchItemResult
  rw [hmiss]
  by_cases h : (topOf (probsOf text)).1 < threshold
  · have h' : ¬ threshold ≤ (topOf (probsOf text)).1 := not_le.mpr h
    simp [h, h']
  · have h' : threshold ≤ (topOf (probsOf text)).1 := not_lt.mp h
    simp [h, h']

/-- The batch loop's returned results are the per-item computations, in
input order, independent of the threaded cache state. -/
theorem classifyBatchGo_fst (probsOf : String → List Rat) (threshold : Rat) :
    ∀ (ts : List String) (st : ClassifierState),
      (classifyBatchGo probsOf threshold ts st).1
        = ts.map (batchItemResult probsOf threshold) := by
  intro ts
  induction ts with
  | nil => intro st; rfl
  | cons t ts ih => intro st; simp [classifyBatchGo, ih]

/-- C8 (amended): `classify_batch(texts)[i]` equals single-item
`classify_intent` on `texts[i]` in isolation whenever the cache holds no
entry for `texts[i]` itself — other items of the batch may well be cached;
on a cache hit at `texts[i]` the two diverge, because `classify_batch`
never reads the cache (see `classify_batch_cache_divergence`). -/
theorem classify_batch_single_consistency (probsOf : String → List Rat)
    (threshold : Rat) (st : ClassifierState) (texts : List String)
    (j : Nat) (t : String) (hj : texts[j]? = some t)
    (hmiss : cacheLookup st.cache t = none) :
    ((classify_batch probsOf threshold st texts).1)[j]?
      = some (classify_intent probsOf threshold st t).1 := by
  cases texts with
  | nil => simp at hj
  | cons x ts =>
    have hred : classify_batch probsOf threshold st (x :: ts)
        = classifyBatchGo probsOf threshold (x :: ts) st := rfl
    rw [hred, classifyBatchGo_fst, List.getElem?_map, hj]
    simp only [Option.map_some']
    rw [classify_intent_miss probsOf threshold st t hmiss]

/-- Witness for the amended C8: with `"t"` cached but `"a"` not, position
0 (`"a"`, a cache miss) of the batch `["a", "t"]` equals the isolated
single-item classification of `"a"` against the same state. -/
theorem classify_batch_single_consistency_witness :
    ((classify_batch probs1 (1/2) staleState ["a", "t"]).1)[0]?
      = some (classify_intent probs1 (1/2) staleState "a").1 :=
  classify_batch_single_consistency probs1 (1/2) staleState ["a", "t"]
    0 "a" rfl rfl

/-- Keys `list(ENTITY_TYPES.keys())` (entity_extractor.py, lines 20-27), in
insertion order. -/
def ENTITY_TYPE_KEYS : List String :=
  ["AGENT_NAME", "INTEGRATION_TYPE", "PARAMETER", "SCHEDULE", "ACTION",
   "CONDITION"]

/-- Python slice `text[idx:idx + 1]`: Python's one-character slice of the raw input at
position `idx` (the empty string when `idx` is past the end). -/
def pySlice1 (text : String) (idx : Nat) : String :=
  String.mk ((text.data.drop idx).take 1)

/-- The extractor's external collaborators for one input: the attention
mask of the preprocessed text (`processed["attention_mask"][0]`, one
0/1 flag per token position) and the softmax probability rows of the
token-classification model (`probabilities[0]`, one row per token
position). -/
structure ExtractorModel where
  mask : String → List Nat
  probs : String → List (List Rat)

/-- The entity-collection loop of `EntityExtractor.extract_entities`
(entity_extractor.py, lines 163-177):
`for idx, (probs, mask) in enumerate(zip(probabilities[0], attention_mask[0]))`,
skipping padding positions, keeping positions whose top probability
(`np.max` / first-occurrence `np.argmax`) meets the threshold, and taking
`text[idx:idx + 1]` of the original raw input as the entity text. -/
def extractLoop (threshold : Rat) (text : String) :
    List (List Rat × Nat) → Nat → List Entity
  | [], _ => []
  | (probs, mask) :: rest, idx =>
    let tail := extractLoop threshold text rest (idx + 1)
    if mask == 0 then tail
    else
      let max_prob := (topOf probs).1
      if threshold ≤ max_prob then
        { type := ENTITY_TYPE_KEYS.getD (topOf probs).2 ""
          confidence := max_prob
          position := idx
          text := pySlice1 text idx } :: tail
      else tail

/-- Embedding of `EntityExtractor.extract_entities` (entity_extractor.py, lines
130-187); `threshold` is `self._confidence_threshold`. -/
def extract_entities (em : ExtractorModel) (threshold : Rat)
    (text : String) : Except PyError (List Entity) :=
  if text.isEmpty then .error (.valueError "Invalid input text")
  else .ok (extractLoop threshold text ((em.probs text).zip (em.mask text)) 0)

/-- Embedding of `EntityExtractor.extract_batch` (entity_extractor.py, lines 189-251):
per-item extraction in input order (the fixed-size sub-batching
concatenates its groups in order, each item processed against its own
mask and probability rows with the token index restarting at 0). -/
def extract_batch (em : ExtractorModel) (threshold : Rat)
    (texts : List String) : Except PyError (List (List Entity)) :=
  if texts.isEmpty then .error (.valueError "Invalid input batch")
  else .ok (texts.map (fun t =>
    extractLoop threshold t ((em.probs t).zip (em.mask t)) 0))

/-- Every entity the collection loop emits carries, as its `text` field,
the one-character slice of the original raw input at its own token
position. -/
theorem extractLoop_text (threshold : Rat) (text : String) :
    ∀ (pairs : List (List Rat × Nat)) (idx : Nat),
      ∀ e ∈ extractLoop threshold text pairs idx,
        e.text = pySlice1 text e.position := by
  intro pairs
  induction pairs with
  | nil => intro idx e he; simp [extractLoop] at he
  | cons p rest ih =>
    intro idx e he
    cases p with
    | mk probs mask =>
      unfold extractLoop at he
      by_cases hm : (mask == 0) = true
      · rw [if_pos hm] at he
        exact ih (idx + 1) e he
      · rw [if_neg hm] at he
        by_cases hth : threshold ≤ (topOf probs).1
        · rw [if_pos hth] at he
          rcases List.mem_cons.mp he with rfl | hmem
          · rfl
          · exact ih (idx + 1) e hmem
        · rw [if_neg hth] at he
          exact ih (idx + 1) e he

/-- C7: every entity reported by `extract_entities`, and every entity in
any row of `extract_batch`, has as `text` the slice of the original
(raw, uncleaned) input at that entity's token position — not of the
cleaned/tokenized text, which never enters the entity construction. -/
theorem entity_text_original (em : ExtractorModel) (threshold : Rat) :
    (∀ (text : String) (es : List Entity),
      extract_entities em threshold text = .ok es →
      ∀ e ∈ es, e.text = pySlice1 text e.position)
    ∧ (∀ (texts : List String) (ess : List (List Entity)) (j : Nat)
        (t : String) (l : List Entity),
      extract_batch em threshold texts = .ok ess →
      texts[j]? = some t → ess[j]? = some l →
      ∀ e ∈ l, e.text = pySlice1 t e.position) := by
  constructor
  · intro text es h e he
    unfold extract_entities at h
    by_cases hE : (text.isEmpty : Prop)
    · rw [if_pos hE] at h
      exact absurd h (by simp)
    · rw [if_neg hE] at h
      have hes : es = extractLoop threshold text
          ((em.probs text).zip (em.mask text)) 0 := by
        injection h with h
        exact h.symm
      rw [hes] at he
      exact extractLoop_text threshold text _ 0 e he
  · intro texts ess j t l h hj hl e he
    unfold extract_batch at h
    by_cases hE : (texts.isEmpty : Prop)
    · rw [if_pos hE] at h
      exact absurd h (by simp)
    · rw [if_neg hE] at h
      have hess : ess = texts.map (fun u =>
          extractLoop threshold u ((em.probs u).zip (em.mask u)) 0) := by
        injection h with h
        exact h.symm
      rw [hess, List.getElem?_map, hj] at hl
      simp only [Option.map_some', Option.some.injEq] at hl
      rw [← hl] at he
      exact extractLoop_text threshold t _ 0 e he

/-- A token-classification model putting full mass on class 0
(`AGENT_NAME`) at a single non-padding token position. -/
def em0 : ExtractorModel :=
  { mask := fun _ => [1]
    probs := fun _ => [[1, 0, 0, 0, 0, 0]] }

/-- Witness for C7: on input `"abc"`, `em0` yields exactly one entity at
position 0 whose text is the slice `"a"` of the original input. -/
theorem entity_text_original_witness :
    ({ type := "AGENT_NAME", confidence := 1, position := 0,
        text := "a" } : Entity).text
      = pySlice1 "abc"
          ({ type := "AGENT_NAME", confidence := 1, position := 0,
              text := "a" } : Entity).position :=
  (entity_text_original em0 1).1 "abc"
    [{ type := "AGENT_NAME", confidence := 1, position := 0, text := "a" }]
    rfl
    { type := "AGENT_NAME", confidence := 1, position := 0, text := "a" }
    (List.mem_singleton.mpr rfl)

end NLP
